import Mathlib

set_option autoImplicit false

namespace TgReviewBot

/-! Shallow embedding of `src/homework.py`, a Telegram homework-status
polling bot.  Python values flowing through the program are modelled by
`PyVal`, exceptions by `PyError`, and the observable side effects of an
operation — messages handed to `send_message` and lines handed to the
logger — by `Effects`. -/

/-- Python values occurring in the program: `None`, strings, integers,
lists, and string-keyed dictionaries (modelled as association lists with
first-match lookup). -/
inductive PyVal where
  | none : PyVal
  | str : String → PyVal
  | int : Int → PyVal
  | list : List PyVal → PyVal
  | dict : List (String × PyVal) → PyVal

/-- Exception classes raised in `homework.py`.  The `typeError`
constructor carries the string CPython would return for `str(exc)`; every
exception the source raises itself is raised without arguments and so
stringifies to the empty string. -/
inductive PyError where
  | typeError (msg : String)
  | keyError
  | exception
  | requestException
  | attributeError
  deriving DecidableEq

/-- `str(error)` as interpolated by the f-strings of the source. -/
def errorStr : PyError → String
  | .typeError msg => msg
  | _ => ""

/-- Observable side effects of a piece of code: the messages passed to
`send_message` (notification attempts) and the lines given to the logger. -/
structure Effects where
  sent : List String
  logged : List String
  deriving DecidableEq

def Effects.nil : Effects := ⟨[], []⟩

instance : Append Effects :=
  ⟨fun a b => ⟨a.sent ++ b.sent, a.logged ++ b.logged⟩⟩

/-- Python `d.get(key)`: the value stored under `key`, or `None` when the
key is absent — a stored `None` and a missing key are indistinguishable,
exactly as for `dict.get` with its default. -/
def dictGet (d : List (String × PyVal)) (key : String) : PyVal :=
  match d.find? (fun p => p.1 == key) with
  | Option.some p => p.2
  | Option.none => PyVal.none

/-- Python `key in d` for a dict. -/
def dictHasKey (d : List (String × PyVal)) (key : String) : Bool :=
  d.any (fun p => p.1 == key)

/-- The fixed verdict table of the source. -/
def HOMEWORK_VERDICTS : List (String × String) :=
  [("approved", "Работа проверена: ревьюеру всё понравилось. Ура!"),
   ("reviewing", "Работа взята на проверку ревьюером."),
   ("rejected", "Работа проверена: у ревьюера есть замечания.")]

/-- Sentinel string returned by `check_response` when the `homeworks` list
is empty, and compared against in `main`. -/
def noNewStatus : String := "У домашки не появился новый статус"

/-- Bare type name of a value.  The source interpolates `type(x)` into its
error messages; CPython renders that with a `class ...` wrapper, which the
embedding abbreviates to the type name itself. -/
def typeName : PyVal → String
  | .none => "NoneType"
  | .str _ => "str"
  | .int _ => "int"
  | .list _ => "list"
  | .dict _ => "dict"

/-- Python truthiness of an optional credential string (`os.getenv` yields
`None` for an unset variable; the empty string is also falsy). -/
def truthy : Option String → Bool
  | Option.some s => s != ""
  | Option.none => false

/-- `check_tokens`: `all((PRACTICUM_TOKEN, TELEGRAM_TOKEN,
TELEGRAM_CHAT_ID))`. -/
def check_tokens (practicumToken telegramToken chatId : Option String) : Bool :=
  truthy practicumToken && truthy telegramToken && truthy chatId

/-- `send_message`: the Telegram `bot.send_message` call is an external
action that either succeeds or raises; the surrounding
`try`/`except Exception` absorbs every failure and only logs.  The result
lists the log lines produced; the `Except` layer records what (if
anything) propagates to the caller. -/
def send_message (sendOutcome : Except PyError Unit) (message : String) :
    Except PyError (List String) :=
  match sendOutcome with
  | Except.ok _ => Except.ok ["Cообщение отправлено"]
  | Except.error e =>
    Except.ok ["Ошибка при отправке сообщения: " ++ errorStr e]

/-- Behaviour of the single `requests.get` call of an iteration: either
the request raises (connection error, timeout), or it yields a response
with an HTTP status code, a reason line, a body text, and the parsed JSON
value of the body. -/
inductive HttpOutcome where
  | transportError
  | response (status : Nat) (reason : String) (text : String) (body : PyVal)

/-- Message of the `TypeError` CPython raises when an `except` clause
names an exception instance instead of a class, as
`except requests.RequestException():` in `get_api_answer` does. -/
def badExceptClauseMsg : String :=
  "catching classes that do not inherit from BaseException is not allowed"

/-- `get_api_answer`.  On a transport error, the malformed
`except requests.RequestException():` clause (an instance, not a class)
makes the exception-match test itself raise a `TypeError`, so the handler
body — the logging and the notification — never runs.  On a non-200
status the function logs, notifies and raises
`requests.RequestException()`.  On HTTP 200 it returns the parsed body.
(The embedding renders the request parameters and status inline and omits
the constant headers dump of the source's message.) -/
def get_api_answer (outcome : HttpOutcome) (timestamp : Int) :
    Except PyError PyVal × Effects :=
  match outcome with
  | .transportError =>
    (Except.error (PyError.typeError badExceptClauseMsg), Effects.nil)
  | .response status reason text body =>
    if status == 200 then
      (Except.ok body, Effects.nil)
    else
      let message :=
        "Ответ сервера не является успешным: request params = from_date=" ++
          toString timestamp ++ "; http_code = " ++ toString status ++
          "; reason = " ++ reason ++ "; content = " ++ text
      (Except.error PyError.requestException, ⟨[message], [message]⟩)

/-- `check_response`: validates the parsed API answer.  A non-dict raises
`TypeError` (logged and notified); a missing `homeworks` key — or a
`None`-valued one, which the test `response.get(...) is None` cannot tell
apart — raises a bare `Exception` (notified, not logged); a non-list value
raises `TypeError` (notified); an empty list yields the sentinel string;
otherwise the first record is returned. -/
def check_response (response : PyVal) : Except PyError PyVal × Effects :=
  match response with
  | .dict d =>
    match dictGet d "homeworks" with
    | .none =>
      let message :=
        "Ошибка полученных данных:" ++ "В ответе отсутствует ключ homeworks."
      (Except.error PyError.exception, ⟨[message], []⟩)
    | .list homeworks =>
      match homeworks with
      | [] => (Except.ok (PyVal.str noNewStatus), Effects.nil)
      | hw :: _ => (Except.ok hw, Effects.nil)
    | other =>
      let message :=
        "Ошибка полученных данных:" ++
          "тип данных ответа не соответствует документации." ++
          "Получен тип " ++ typeName other ++ " вместо list"
      (Except.error (PyError.typeError ""), ⟨[message], []⟩)
  | _ =>
    let message :=
      "Ошибка полученных данных:" ++
        "тип данных ответа не соответствует документации." ++
        "Получен тип " ++ typeName response ++ " вместо dict"
    (Except.error (PyError.typeError ""), ⟨[message], [message]⟩)

/-- Python substring test `pat in s` on strings. -/
def strContains (s pat : String) : Bool :=
  decide ((s.splitOn pat).length > 1)

/-- The membership test `status not in HOMEWORK_VERDICTS` combined with
the subsequent `HOMEWORK_VERDICTS.get(status)`.  Membership in a dict
hashes the candidate key, so an unhashable value — a list or a dict —
makes the test itself raise `TypeError`; a hashable non-string value
(`None`, a number) is simply absent; a string is looked up in the table.
(CPython quotes the type name inside the TypeError message; the embedding
omits the quotes.) -/
def verdictOf : PyVal → Except PyError (Option String)
  | .str s =>
    Except.ok ((HOMEWORK_VERDICTS.find? (fun p => p.1 == s)).map (fun p => p.2))
  | .none => Except.ok Option.none
  | .int _ => Except.ok Option.none
  | .list _ => Except.error (PyError.typeError "unhashable type: list")
  | .dict _ => Except.error (PyError.typeError "unhashable type: dict")

/-- f-string interpolation `str(x)` of a value; composite reprs are not
reachable through any claim and are abbreviated. -/
def pyFormat : PyVal → String
  | .none => "None"
  | .str s => s
  | .int n => toString n
  | .list _ => "[...]"
  | .dict _ => "dict-repr"

/-- `parse_status`: extracts the verdict message from a homework record.
An unhashable `status` value makes the verdict-table membership test
itself raise `TypeError`, before any logging.  The membership tests for
the keys `status` and `homework_name` follow the Python `in` operator
when the argument is not a dict: substring search on a string, element
search on a list, `TypeError` otherwise; a subsequent `.get` on a
non-dict raises `AttributeError`.  Only the dict case is reachable
through `main`. -/
def parse_status (homeworks : PyVal) : Except PyError String × Effects :=
  match homeworks with
  | .dict d =>
    if dictHasKey d "status" = false then
      let message :=
        "В ответе сервера отсутствует ключ" ++ "\"status\" - \"статус домашки\""
      (Except.error PyError.keyError, ⟨[], [message]⟩)
    else
      match verdictOf (dictGet d "status") with
      | Except.error e => (Except.error e, Effects.nil)
      | Except.ok Option.none =>
        let message := "Полученный \"status\" не соответсвует документации"
        (Except.error PyError.keyError, ⟨[], [message]⟩)
      | Except.ok (Option.some verdict) =>
        if dictHasKey d "homework_name" = false then
          let message :=
            "В ответе сервера отсутствует ключ" ++
              "\"homework_name\" - \"название домашки\""
          (Except.error PyError.keyError, ⟨[], [message]⟩)
        else
          (Except.ok ("Изменился статус проверки работы \"" ++
              pyFormat (dictGet d "homework_name") ++ "\". " ++ verdict),
            Effects.nil)
  | .str s =>
    if strContains s "status" then
      (Except.error PyError.attributeError, Effects.nil)
    else
      let message :=
        "В ответе сервера отсутствует ключ" ++ "\"status\" - \"статус домашки\""
      (Except.error PyError.keyError, ⟨[], [message]⟩)
  | .list l =>
    if l.any (fun v => match v with | .str s => s == "status" | _ => false) then
      (Except.error PyError.attributeError, Effects.nil)
    else
      let message :=
        "В ответе сервера отсутствует ключ" ++ "\"status\" - \"статус домашки\""
      (Except.error PyError.keyError, ⟨[], [message]⟩)
  | other =>
    (Except.error
        (PyError.typeError
          ("argument of type " ++ typeName other ++ " is not iterable")),
      Effects.nil)

/-- Python `isinstance(x, dict)`, the guard at the top of
`check_response`. -/
def isDict : PyVal → Bool
  | .dict _ => true
  | _ => false

/-- The two loop-local variables of `main`. -/
structure LoopState where
  previous_status : String
  last_error : String
  deriving DecidableEq

/-- The `except Exception` handler of `main`: build the failure message
from the raised error; if it differs from `last_error`, log and notify.
NOTE: the source compares against `last_error` but never assigns
`last_error` inside the handler, so the comparison is forever against the
initial value of the variable. -/
def mainHandleError (e : PyError) (st : LoopState) (eff : Effects) :
    LoopState × Effects :=
  let message := "Сбой в работе программы: " ++ errorStr e
  if st.last_error ≠ message then
    (st, eff ++ ⟨[message], [message]⟩)
  else
    (st, eff)

/-- A call `send_message(bot, message)` from the loop body, recorded as a
notification attempt; delivery failures are absorbed inside
`send_message` and cannot alter the control flow of the loop. -/
def notifyEff (message : String) : Effects := ⟨[message], []⟩

/-- The comparison of the validated result against the sentinel string in
`main`: Python equality of an arbitrary value with a string (a dict never
equals a str). -/
def isSentinel : PyVal → Bool
  | .str s => s == noNewStatus
  | _ => false

/-- One iteration of the `while True` body of `main`: poll, validate,
parse, notify if the status changed, with the generic `except Exception`
handler wrapped around the whole chain. -/
def mainStep (outcome : HttpOutcome) (timestamp : Int) (st : LoopState) :
    LoopState × Effects :=
  match get_api_answer outcome timestamp with
  | (Except.error e, eff) => mainHandleError e st eff
  | (Except.ok response, eff0) =>
    match check_response response with
    | (Except.error e, eff1) => mainHandleError e st (eff0 ++ eff1)
    | (Except.ok homework, eff1) =>
      if isSentinel homework = false then
        match parse_status homework with
        | (Except.error e, eff2) => mainHandleError e st (eff0 ++ eff1 ++ eff2)
        | (Except.ok current_status, eff2) =>
          if current_status ≠ st.previous_status then
            ({ st with previous_status := current_status },
              eff0 ++ eff1 ++ eff2 ++ notifyEff current_status)
          else
            (st, eff0 ++ eff1 ++ eff2)
      else
        (st, eff0 ++ eff1 ++ notifyEff (pyFormat homework))

/-! Helper lemmas shared by the claim theorems. -/

/-- Unfolding of the `Append` instance on `Effects`. -/
@[simp]
theorem Effects.app_def (a b : Effects) :
    a ++ b = ⟨a.sent ++ b.sent, a.logged ++ b.logged⟩ := rfl

/-- A key whose stored value is a string is in particular present. -/
theorem dictHasKey_of_dictGet_str (d : List (String × PyVal)) (k s : String)
    (h : dictGet d k = PyVal.str s) : dictHasKey d k = true := by
  induction d with
  | nil => simp [dictGet] at h
  | cons p tl ih =>
    cases hp : (p.1 == k) with
    | true => simp [dictHasKey, hp]
    | false =>
      have h2 : dictGet tl k = PyVal.str s := by
        simpa [dictGet, List.find?, hp] using h
      have htl := ih h2
      simp [dictHasKey, hp] at htl ⊢
      exact htl

/-- C4: for every mapping whose `homeworks` key maps to the empty list,
`check_response` returns the sentinel string (no new status) and raises
nothing — and produces no side effect. -/
theorem check_response_empty_list_sentinel (d : List (String × PyVal))
    (h : dictGet d "homeworks" = PyVal.list []) :
    check_response (PyVal.dict d) =
      (Except.ok (PyVal.str noNewStatus), Effects.nil) := by
  simp [check_response, h]

theorem check_response_empty_list_sentinel_witness :
    check_response (PyVal.dict [("homeworks", PyVal.list [])]) =
      (Except.ok (PyVal.str noNewStatus), Effects.nil) :=
  check_response_empty_list_sentinel [("homeworks", PyVal.list [])] rfl

/-- C7: for every input value that is not a mapping, `check_response`
raises a `TypeError`. -/
theorem check_response_non_dict_type_error (v : PyVal)
    (h : isDict v = false) :
    (check_response v).1 = Except.error (PyError.typeError "") := by
  cases v <;> simp_all [isDict, check_response]

theorem check_response_non_dict_type_error_witness :
    (check_response (PyVal.int 0)).1 = Except.error (PyError.typeError "") :=
  check_response_non_dict_type_error (PyVal.int 0) rfl

/-- C10: a `homeworks` key present with value `None` is indistinguishable
from a missing key — `check_response` fails with the same bare
`Exception` (and the same effects) as on a mapping without the key. -/
theorem check_response_none_valued_key (d : List (String × PyVal))
    (hk : dictHasKey d "homeworks" = true)
    (hv : dictGet d "homeworks" = PyVal.none) :
    check_response (PyVal.dict d) = check_response (PyVal.dict []) ∧
      (check_response (PyVal.dict d)).1 = Except.error PyError.exception := by
  constructor
  · simp only [check_response]
    rw [hv]
    rfl
  · simp only [check_response]
    rw [hv]

theorem check_response_none_valued_key_witness :
    check_response (PyVal.dict [("homeworks", PyVal.none)]) =
        check_response (PyVal.dict []) ∧
      (check_response (PyVal.dict [("homeworks", PyVal.none)])).1 =
        Except.error PyError.exception :=
  check_response_none_valued_key [("homeworks", PyVal.none)] rfl rfl

/-- C8: `send_message` never lets a failure of the underlying Telegram
send escape to its caller: whatever the send does, the function returns
normally. -/
theorem send_message_never_raises (sendOutcome : Except PyError Unit)
    (message : String) :
    ∃ logs, send_message sendOutcome message = Except.ok logs := by
  cases sendOutcome <;> exact ⟨_, rfl⟩

/-- C6 counterexample: at the record with the unhashable status value
`[]`, the source raises `TypeError` from the verdict-table membership
test itself (hashing the candidate key), not the `KeyError` the claim
asserts for every status outside the table. -/
theorem parse_status_unhashable_status_not_key_error :
    (parse_status (PyVal.dict [("status", PyVal.list [])])).1 =
        Except.error (PyError.typeError "unhashable type: list") ∧
      (parse_status (PyVal.dict [("status", PyVal.list [])])).1 ≠
        Except.error PyError.keyError :=
  ⟨rfl, by simp [parse_status, verdictOf, dictGet, List.find?, dictHasKey]⟩

/-- C6 (amended): for every record whose `status` key is present with a
hashable value that is not one of the three codes of the verdict table —
any string outside the table, `None`, or a number — `parse_status` raises
a `KeyError`; an unhashable status value (a list or a dict) instead makes
the membership test raise a `TypeError`. -/
theorem parse_status_unknown_code (d : List (String × PyVal))
    (hk : dictHasKey d "status" = true)
    (hv : verdictOf (dictGet d "status") = Except.ok Option.none) :
    (parse_status (PyVal.dict d)).1 = Except.error PyError.keyError := by
  simp [parse_status, hk, hv]

theorem parse_status_unknown_code_witness :
    dictHasKey [("status", PyVal.str "retired")] "status" = true ∧
      verdictOf (dictGet [("status", PyVal.str "retired")] "status") =
        Except.ok Option.none ∧
      (parse_status (PyVal.dict [("status", PyVal.str "retired")])).1 =
        Except.error PyError.keyError :=
  ⟨rfl, rfl, parse_status_unknown_code [("status", PyVal.str "retired")] rfl rfl⟩

/-- C5: for every record with a string `homework_name` and a `status`
equal to one of the three valid codes, `parse_status` succeeds and returns
exactly the formatted sentence, with the verdict looked up in
`HOMEWORK_VERDICTS` and the literal homework name inside. -/
theorem parse_status_valid_codes (d : List (String × PyVal)) (code name : String)
    (hs : dictGet d "status" = PyVal.str code)
    (hc : code = "approved" ∨ code = "reviewing" ∨ code = "rejected")
    (hn : dictGet d "homework_name" = PyVal.str name) :
    ∃ verdict, verdictOf (PyVal.str code) = Except.ok (Option.some verdict) ∧
      (parse_status (PyVal.dict d)).1 =
        Except.ok ("Изменился статус проверки работы \"" ++ name ++
          "\". " ++ verdict) := by
  have hks := dictHasKey_of_dictGet_str d "status" code hs
  have hkn := dictHasKey_of_dictGet_str d "homework_name" name hn
  rcases hc with h | h | h <;> subst h <;>
    exact ⟨_, rfl, by
      simp [parse_status, hks, hkn, hs, hn, verdictOf, HOMEWORK_VERDICTS,
        List.find?, pyFormat]⟩

theorem parse_status_valid_codes_witness :
    ∃ verdict, verdictOf (PyVal.str "reviewing") = Except.ok (Option.some verdict) ∧
      (parse_status (PyVal.dict
          [("homework_name", PyVal.str "hw1"),
           ("status", PyVal.str "reviewing")])).1 =
        Except.ok ("Изменился статус проверки работы \"" ++ "hw1" ++
          "\". " ++ verdict) :=
  parse_status_valid_codes
    [("homework_name", PyVal.str "hw1"), ("status", PyVal.str "reviewing")]
    "reviewing" "hw1" rfl (Or.inr (Or.inl rfl)) rfl

/-- C9: in an iteration whose poll yields an empty homeworks list, the
sentinel text is passed to `send_message` unconditionally — whatever the
loop state holds — and the state is left unchanged, so the identical
notification repeats on every such iteration. -/
theorem main_sentinel_sent_unconditionally (timestamp : Int) (st : LoopState) :
    mainStep (HttpOutcome.response 200 "OK" ""
        (PyVal.dict [("homeworks", PyVal.list [])])) timestamp st =
      (st, ⟨[noNewStatus], []⟩) := rfl

/-- C3: two consecutive iterations whose polls yield the same qualifying
homework record notify exactly once: the first iteration sends the parsed
message and stores it in `previous_status`; the second, starting from that
state, sends nothing and leaves `previous_status` unchanged. -/
theorem main_status_notified_once (d : List (String × PyVal)) (tl : List PyVal)
    (ts1 ts2 : Int) (st : LoopState) (msg : String)
    (hp : parse_status (PyVal.dict d) = (Except.ok msg, Effects.nil))
    (h0 : msg ≠ st.previous_status) :
    mainStep (HttpOutcome.response 200 "OK" ""
        (PyVal.dict [("homeworks", PyVal.list (PyVal.dict d :: tl))])) ts1 st =
      ({ st with previous_status := msg }, ⟨[msg], []⟩) ∧
    mainStep (HttpOutcome.response 200 "OK" ""
        (PyVal.dict [("homeworks", PyVal.list (PyVal.dict d :: tl))])) ts2
        { st with previous_status := msg } =
      ({ st with previous_status := msg }, Effects.nil) := by
  constructor
  · simp [mainStep, get_api_answer, check_response, dictGet, List.find?,
      isSentinel, hp, h0, notifyEff, Effects.nil]
  · simp [mainStep, get_api_answer, check_response, dictGet, List.find?,
      isSentinel, hp, Effects.nil]

theorem main_status_notified_once_witness :
    mainStep (HttpOutcome.response 200 "OK" ""
        (PyVal.dict [("homeworks", PyVal.list
          (PyVal.dict [("status", PyVal.str "approved"),
                       ("homework_name", PyVal.str "hw1")] :: []))])) 0
        ⟨"", ""⟩ =
      ({ LoopState.mk "" "" with previous_status :=
          "Изменился статус проверки работы \"hw1\". " ++
            "Работа проверена: ревьюеру всё понравилось. Ура!" },
        ⟨["Изменился статус проверки работы \"hw1\". " ++
            "Работа проверена: ревьюеру всё понравилось. Ура!"], []⟩) ∧
    mainStep (HttpOutcome.response 200 "OK" ""
        (PyVal.dict [("homeworks", PyVal.list
          (PyVal.dict [("status", PyVal.str "approved"),
                       ("homework_name", PyVal.str "hw1")] :: []))])) 0
        { LoopState.mk "" "" with previous_status :=
            "Изменился статус проверки работы \"hw1\". " ++
              "Работа проверена: ревьюеру всё понравилось. Ура!" } =
      ({ LoopState.mk "" "" with previous_status :=
          "Изменился статус проверки работы \"hw1\". " ++
            "Работа проверена: ревьюеру всё понравилось. Ура!" },
        Effects.nil) :=
  main_status_notified_once
    [("status", PyVal.str "approved"), ("homework_name", PyVal.str "hw1")]
    [] 0 0 ⟨"", ""⟩
    ("Изменился статус проверки работы \"hw1\". " ++
      "Работа проверена: ревьюеру всё понравилось. Ура!")
    rfl (by decide)

/-- C1 (evaluation at the failing input): two consecutive iterations whose
polls raise the same transport error format the identical failure message,
yet the message is passed to `send_message` in BOTH iterations, and
`last_error` is still the initial empty string afterwards — `main` never
assigns `last_error`, so the suppression the claim describes does not
happen. -/
theorem main_error_notified_twice :
    (mainStep HttpOutcome.transportError 0 ⟨"", ""⟩).2.sent =
        ["Сбой в работе программы: " ++ badExceptClauseMsg] ∧
      (mainStep HttpOutcome.transportError 0
          (mainStep HttpOutcome.transportError 0 ⟨"", ""⟩).1).2.sent =
        ["Сбой в работе программы: " ++ badExceptClauseMsg] ∧
      (mainStep HttpOutcome.transportError 0
          (mainStep HttpOutcome.transportError 0 ⟨"", ""⟩).1).1.last_error =
        "" :=
  ⟨rfl, rfl, rfl⟩

/-- C2 (evaluation at the failing input): when `requests.get` raises a
transport error, `get_api_answer` neither logs nor attempts any
notification; the malformed `except requests.RequestException():` clause
makes it propagate a `TypeError` instead of running its handler body. -/
theorem get_api_answer_transport_error_silent :
    get_api_answer HttpOutcome.transportError 0 =
      (Except.error (PyError.typeError badExceptClauseMsg), Effects.nil) := rfl

end TgReviewBot
